import Mathlib

/-!
Shallow embedding of the `serial` package (`serial_linux.go`) of schmidtw/go232.

Conventions of the embedding:
* Go `uint32` values are modelled as `Nat` (all flag values here are far below
  `2^32` and only bitwise-or is applied, which cannot overflow).
* Go `int` (the baud argument) is modelled as `Int`.
* A Go string indexed byte-wise (`cfg[0]`) is modelled as a `List Nat` of its
  byte values; out-of-range indexing, which panics in Go, is modelled by an
  explicit `panicked` outcome.
* Kernel constants from `golang.org/x/sys/unix` (linux/amd64) are transcribed
  as numeric definitions.
* The operating system behind `os.OpenFile`, `unix.Syscall(SYS_IOCTL, ...)`,
  `unix.SetNonblock`, `File.Read`/`File.Write` is modelled as an explicit
  environment `Env` of response functions; every operation additionally
  returns the list of OS calls it issued, so "performs no OS call" is the
  statement that this trace is empty.
-/

/- ## Kernel constants (golang.org/x/sys/unix, linux/amd64) -/

def CS5 : Nat := 0x00
def CS6 : Nat := 0x10
def CS7 : Nat := 0x20
def CS8 : Nat := 0x30
def CSTOPB : Nat := 0x40
def CREAD : Nat := 0x80
def PARENB : Nat := 0x100
def PARODD : Nat := 0x200
def CLOCAL : Nat := 0x800
def IGNPAR : Nat := 0x4
def VTIME : Nat := 5
def VMIN : Nat := 6
def TCSETS : Nat := 0x5402
def TCFLSH : Nat := 0x540B
def TCSBRKP : Nat := 0x5425
def TCIOFLUSH : Nat := 2
def EBADFD : Nat := 77
def O_RDWR : Nat := 0x2
def O_NOCTTY : Nat := 0x100
def O_NONBLOCK : Nat := 0x800

/- ## The lookup tables (`baudMap`, `dataBitsMap`, `stopBitsMap`, `parityMap`) -/

/-- The `baudMap` literal: supported baud rate to kernel rate code
(`unix.B50` = 0o1 .. `unix.B38400` = 0o17, `unix.B57600` = 0o10001 ..
`unix.B4000000` = 0o10017). -/
def baudTable : List (Int × Nat) :=
  [(50, 1), (75, 2), (110, 3), (134, 4), (150, 5), (200, 6), (300, 7),
   (600, 8), (1200, 9), (1800, 10), (2400, 11), (4800, 12), (9600, 13),
   (19200, 14), (38400, 15), (57600, 4097), (115200, 4098), (230400, 4099),
   (460800, 4100), (500000, 4101), (576000, 4102), (921600, 4103),
   (1000000, 4104), (1152000, 4105), (1500000, 4106), (2000000, 4107),
   (2500000, 4108), (3000000, 4109), (3500000, 4110), (4000000, 4111)]

/-- Go map lookup `baudMap[baud]`. -/
def baudMap (baud : Int) : Option Nat :=
  (baudTable.find? (fun p => p.1 == baud)).map (fun p => p.2)

/-- Go map lookup `dataBitsMap[c]`; keys are the bytes `'5' '6' '7' '8'`. -/
def dataBitsMap (c : Nat) : Option Nat :=
  if c = 53 then some CS5
  else if c = 54 then some CS6
  else if c = 55 then some CS7
  else if c = 56 then some CS8
  else none

/-- Go map lookup `stopBitsMap[c]`; keys are the bytes `'1' '2'`. -/
def stopBitsMap (c : Nat) : Option Nat :=
  if c = 49 then some 0
  else if c = 50 then some CSTOPB
  else none

/-- Go map lookup `parityMap[c]`; keys are the bytes `'N' 'O' 'E'`. -/
def parityMap (c : Nat) : Option Nat :=
  if c = 78 then some 0
  else if c = 79 then some (PARENB ||| PARODD)
  else if c = 69 then some PARENB
  else none

/- ## validateConfig -/

/-- Outcome of Go's `validateConfig`, which has signature
`(rate, flags uint32, err error)`: `ret r f e` is the triple return, and
`panicked` is a Go runtime index-out-of-range panic (the function indexes
`cfg[0]`, `cfg[1]`, `cfg[2]` without a length check). -/
inductive VResult where
  | ret (rate flags : Nat) (err : Option String)
  | panicked
deriving DecidableEq, Repr

/-- `validateConfig(baud int, cfg string)`: each field is looked up in its
table in source order, the first failed lookup returns `0, 0, error`; on
success the flag bits are or-ed together. -/
def validateConfig (baud : Int) (cfg : List Nat) : VResult :=
  match baudMap baud with
  | none => .ret 0 0 (some "Invalid baud rate parameter.")
  | some rate =>
    match cfg[0]? with
    | none => .panicked
    | some c0 =>
      match dataBitsMap c0 with
      | none => .ret 0 0 (some "Invalid data bits parameter.")
      | some d =>
        match cfg[1]? with
        | none => .panicked
        | some c1 =>
          match parityMap c1 with
          | none => .ret 0 0 (some "Invalid parity parameter.")
          | some p =>
            match cfg[2]? with
            | none => .panicked
            | some c2 =>
              match stopBitsMap c2 with
              | none => .ret 0 0 (some "Invalid parity parameter.")
              | some st => .ret rate (d ||| p ||| st) none

/-- The supported baud set, as enumerated by the spec (the keys of
`baudTable`). -/
def supportedBauds : List Int :=
  [50, 75, 110, 134, 150, 200, 300, 600, 1200, 1800, 2400, 4800, 9600,
   19200, 38400, 57600, 115200, 230400, 460800, 500000, 576000, 921600,
   1000000, 1152000, 1500000, 2000000, 2500000, 3000000, 3500000, 4000000]

/-- Byte values of the data-bits grammar class `[5678]`. -/
def dataBitsChars : List Nat := [53, 54, 55, 56]

/-- Byte values of the parity grammar class `[NOE]`. -/
def parityChars : List Nat := [78, 79, 69]

/-- Byte values of the stop-bits grammar class `[12]`. -/
def stopBitsChars : List Nat := [49, 50]

/- ## The Serial structure and its OS environment -/

/-- `unix.Termios` (linux/amd64): flag words are `uint32`, `Cc` is a
19-byte array (`NCCS = 19`). Field order: Iflag, Oflag, Cflag, Lflag,
Line, Ispeed, Ospeed, Cc. -/
structure Termios where
  Iflag : Nat
  Oflag : Nat
  Cflag : Nat
  Lflag : Nat
  Line : Nat
  Ispeed : Nat
  Ospeed : Nat
  Cc : List Nat
deriving DecidableEq, Repr

/-- The argument of an ioctl request: a plain integer (`TCIOFLUSH`, `0`) or
a pointer to a `Termios` block (`&t` for `TCSETS`), modelled by its
pointee. -/
inductive IoctlArg where
  | num (n : Nat)
  | tio (t : Termios)
deriving DecidableEq, Repr

/-- One call into the OS. `osOpen` records `os.OpenFile(name, flags, perm)`,
`osIoctl` records `unix.Syscall(SYS_IOCTL, fd, req, arg)`, `osSetNonblock`
records `unix.SetNonblock(fd, b)`, and `osRead`/`osWrite`/`osClose` record
the `os.File` methods (a read buffer is recorded by its length). -/
inductive OSCall where
  | osOpen (name : String) (flags : Nat) (perm : Nat)
  | osClose (fd : Nat)
  | osRead (fd : Nat) (len : Nat)
  | osWrite (fd : Nat) (data : List Nat)
  | osIoctl (fd : Nat) (req : Nat) (arg : IoctlArg)
  | osSetNonblock (fd : Nat) (nonblocking : Bool)
deriving DecidableEq, Repr

/-- The OS as an oracle of responses: what `os.OpenFile` returns (an error
or a file descriptor), the errno of each ioctl, the error (if any) of
`unix.SetNonblock`, and the `(n, err)` results of `File.Read`/`File.Write`. -/
structure Env where
  openResult : String → Nat → Nat → Except String Nat
  ioctlErrno : Nat → Nat → IoctlArg → Nat
  setNonblockResult : Nat → Bool → Option String
  readResult : Nat → Nat → Nat × Option String
  writeResult : Nat → List Nat → Nat × Option String

/-- The errors the package can return. Every `fmt.Errorf` message is
modelled structurally, keeping the data it formats: `notOpen name` is
"Serial port '<name>' not open.", `alreadyOpen name` is
"Serial port '<name>' already open.", `validation msg` carries a
`validateConfig` message verbatim, `ioctlFailed name errno` is SetBaud's
"ioctl( '<name>', TCSETS, &t ) error: <errno>", `errnoErr e` is a raw
`unix.Errno` returned as the error (Flush/SendBreak), and `osError msg` is
an error propagated unchanged from the OS. -/
inductive SerialError where
  | notOpen (name : String)
  | alreadyOpen (name : String)
  | validation (msg : String)
  | ioctlFailed (name : String) (errno : Nat)
  | errnoErr (errno : Nat)
  | osError (msg : String)
deriving DecidableEq, Repr

/-- The `Serial` struct: a port name and an optional open OS handle
(`file *os.File`, modelled by its file descriptor). -/
structure Serial where
  Name : String
  file : Option Nat
deriving DecidableEq, Repr

/-- Outcome of an operation whose Go body can also panic (SetBaud calls
`validateConfig`, which indexes the mode string unchecked). -/
inductive Outcome where
  | ok
  | err (e : SerialError)
  | panicked
deriving DecidableEq, Repr

/-- The flags `os.OpenFile` is called with:
`unix.O_RDWR | unix.O_NOCTTY | unix.O_NONBLOCK`. -/
def serialOpenFlags : Nat := O_RDWR ||| O_NOCTTY ||| O_NONBLOCK

/-- `func (s *Serial) ioctl(req, arg uintptr) unix.Errno`: returns
`EBADFD` without a syscall when `s.file` is nil, otherwise issues the
ioctl and returns its errno. Result: (errno, OS calls issued). -/
def Serial.ioctl (s : Serial) (env : Env) (req : Nat) (arg : IoctlArg) :
    Nat × List OSCall :=
  match s.file with
  | none => (EBADFD, [])
  | some fd => (env.ioctlErrno fd req arg, [OSCall.osIoctl fd req arg])

/-- `func (s *Serial) Close() error`: closes the file if present, clears
the field, always returns nil. Result: (error, new state, OS calls). -/
def Serial.Close (s : Serial) (_env : Env) :
    Option SerialError × Serial × List OSCall :=
  match s.file with
  | some fd => (none, ⟨s.Name, none⟩, [OSCall.osClose fd])
  | none => (none, s, [])

/-- `func (s *Serial) Open() error`: fails when already open; otherwise
`os.OpenFile(s.Name, O_RDWR|O_NOCTTY|O_NONBLOCK, 0666)`, propagating its
error, or storing the handle. Result: (error, new state, OS calls). -/
def Serial.Open (s : Serial) (env : Env) :
    Option SerialError × Serial × List OSCall :=
  match s.file with
  | some _ => (some (.alreadyOpen s.Name), s, [])
  | none =>
    match env.openResult s.Name serialOpenFlags 438 with
    | .error e => (some (.osError e), s, [OSCall.osOpen s.Name serialOpenFlags 438])
    | .ok fd => (none, ⟨s.Name, some fd⟩, [OSCall.osOpen s.Name serialOpenFlags 438])

/-- The terminal-attribute block SetBaud assembles:
`unix.Termios{Iflag: IGNPAR, Cflag: CREAD | CLOCAL | rate | flags,
Ispeed: rate, Ospeed: rate}` (remaining words zero), then
`t.Cc[VMIN] = 1` and `t.Cc[VTIME] = 4`. -/
def setBaudTermios (rate flags : Nat) : Termios :=
  ⟨IGNPAR, 0, CREAD ||| CLOCAL ||| rate ||| flags, 0, 0, rate, rate,
   ((List.replicate 19 0).set VMIN 1).set VTIME 4⟩

/-- `func (s *Serial) SetBaud(baud int, cfg string) error`: "not open"
check, `validateConfig`, build the terminal-attribute block
(`setBaudTermios`), issue `TCSETS` through `s.ioctl`, and on errno 0
finish with `unix.SetNonblock(fd, false)`, whose error is returned.
Result: (outcome, new state, OS calls). -/
def Serial.SetBaud (s : Serial) (env : Env) (baud : Int) (cfg : List Nat) :
    Outcome × Serial × List OSCall :=
  match s.file with
  | none => (.err (.notOpen s.Name), s, [])
  | some fd =>
    match validateConfig baud cfg with
    | .panicked => (.panicked, s, [])
    | .ret _ _ (some msg) => (.err (.validation msg), s, [])
    | .ret rate flags none =>
      let t := setBaudTermios rate flags
      let pr := Serial.ioctl s env TCSETS (IoctlArg.tio t)
      if pr.1 ≠ 0 then
        (.err (.ioctlFailed s.Name pr.1), s, pr.2)
      else
        match env.setNonblockResult fd false with
        | none => (.ok, s, pr.2 ++ [OSCall.osSetNonblock fd false])
        | some e => (.err (.osError e), s, pr.2 ++ [OSCall.osSetNonblock fd false])

/-- `func (s *Serial) Write(b []byte) (n int, err error)`: "not open"
check, then `s.file.Write(b)`. No state change in Go, so no state is
returned. Result: ((n, error), OS calls). -/
def Serial.Write (s : Serial) (env : Env) (b : List Nat) :
    (Nat × Option SerialError) × List OSCall :=
  match s.file with
  | none => ((0, some (.notOpen s.Name)), [])
  | some fd =>
    let r := env.writeResult fd b
    ((r.1, r.2.map SerialError.osError), [OSCall.osWrite fd b])

/-- `func (s *Serial) Read(b []byte) (n int, err error)`: "not open"
check, then `s.file.Read(b)`; the buffer is modelled by its length.
Result: ((n, error), OS calls). -/
def Serial.Read (s : Serial) (env : Env) (blen : Nat) :
    (Nat × Option SerialError) × List OSCall :=
  match s.file with
  | none => ((0, some (.notOpen s.Name)), [])
  | some fd =>
    let r := env.readResult fd blen
    ((r.1, r.2.map SerialError.osError), [OSCall.osRead fd blen])

/-- `func (s *Serial) Flush() error`: "not open" check, then
`s.ioctl(TCFLSH, TCIOFLUSH)`; a non-zero errno is returned as the error
itself. Result: (error, OS calls). -/
def Serial.Flush (s : Serial) (env : Env) :
    Option SerialError × List OSCall :=
  match s.file with
  | none => (some (.notOpen s.Name), [])
  | some _ =>
    let pr := Serial.ioctl s env TCFLSH (IoctlArg.num TCIOFLUSH)
    if pr.1 ≠ 0 then (some (.errnoErr pr.1), pr.2) else (none, pr.2)

/-- `func (s *Serial) SendBreak() error`: "not open" check, then
`s.ioctl(TCSBRKP, 0)`; a non-zero errno is returned as the error itself.
Result: (error, OS calls). -/
def Serial.SendBreak (s : Serial) (env : Env) :
    Option SerialError × List OSCall :=
  match s.file with
  | none => (some (.notOpen s.Name), [])
  | some _ =>
    let pr := Serial.ioctl s env TCSBRKP (IoctlArg.num 0)
    if pr.1 ≠ 0 then (some (.errnoErr pr.1), pr.2) else (none, pr.2)

/-- A concrete OS oracle on which every call succeeds: opening yields file
descriptor 3, every ioctl returns errno 0, `SetNonblock` succeeds, reads
and writes transfer 0 bytes with no error. Used by witnesses. -/
def testEnv : Env :=
  ⟨fun _ _ _ => Except.ok 3, fun _ _ _ => 0, fun _ _ => none,
   fun _ _ => (0, none), fun _ _ => (0, none)⟩

/-- A concrete OS oracle on which every call fails: opening returns an
error, every ioctl returns errno 5 (EIO), `SetNonblock` fails. Used by
witnesses of error paths. -/
def failEnv : Env :=
  ⟨fun _ _ _ => Except.error "no such device", fun _ _ _ => 5,
   fun _ _ => some "fcntl failed", fun _ _ => (0, none), fun _ _ => (0, none)⟩

/- ## Theorems -/

/-- Every key of `baudTable` is listed in `supportedBauds`. -/
lemma baudTable_keys_supported : ∀ p ∈ baudTable, p.1 ∈ supportedBauds := by
  decide

/-- A baud rate outside the supported set is absent from `baudMap`. -/
lemma baudMap_eq_none_of_not_supported (b : Int) (hb : b ∉ supportedBauds) :
    baudMap b = none := by
  unfold baudMap
  rw [List.find?_eq_none.mpr]
  · rfl
  · intro p hp hbeq
    exact hb (beq_iff_eq.mp hbeq ▸ baudTable_keys_supported p hp)

/-- C1: every supported baud with a grammar-conforming 3-character mode
string passes `validateConfig`, yielding the table rate code and the or of
the three field flags; every unsupported baud yields the invalid-baud-rate
error (for every mode string, since the baud is checked first). -/
theorem validateConfig_total_on_supported :
    (∀ b ∈ supportedBauds, ∀ c0 ∈ dataBitsChars, ∀ c1 ∈ parityChars,
      ∀ c2 ∈ stopBitsChars,
      validateConfig b [c0, c1, c2] =
        VResult.ret ((baudMap b).getD 0)
          (((dataBitsMap c0).getD 0) ||| ((parityMap c1).getD 0) |||
            ((stopBitsMap c2).getD 0)) none) ∧
    (∀ b : Int, b ∉ supportedBauds → ∀ cfg : List Nat,
      validateConfig b cfg =
        VResult.ret 0 0 (some "Invalid baud rate parameter.")) := by
  constructor
  · decide
  · intro b hb cfg
    unfold validateConfig
    rw [baudMap_eq_none_of_not_supported b hb]

/-- C1 witness: instantiated at baud 9600 with mode "8N1" (bytes
[56, 78, 49]) and at the unsupported baud 1. -/
theorem validateConfig_total_on_supported_witness :
    validateConfig 9600 [56, 78, 49] = VResult.ret 13 48 none ∧
    validateConfig 1 [56, 78, 49] =
      VResult.ret 0 0 (some "Invalid baud rate parameter.") := by
  have h := validateConfig_total_on_supported
  refine ⟨?_, ?_⟩
  · have := h.1 9600 (by decide) 56 (by decide) 78 (by decide) 49 (by decide)
    simpa using this
  · exact h.2 1 (by decide) [56, 78, 49]

/-- C2 counterexample: the mode string "8N1X" has length 4, yet
`validateConfig` accepts it at baud 9600 (it returns rate 13, flags 48 and
no error) — a mode string whose length is not 3 is not rejected. -/
theorem validateConfig_length4_accepted :
    validateConfig 9600 [56, 78, 49, 88] = VResult.ret 13 48 none ∧
    ([56, 78, 49, 88] : List Nat).length ≠ 3 := by
  decide

/-- C2 amended: `validateConfig` never checks the length of the mode
string. A string of length at least 3 is treated exactly as its first
three characters (so longer strings whose first three characters are valid
are accepted); a too-short string reaches an unchecked index and panics
when its present characters pass their lookups and the baud is valid
(shown here for the empty string); only an invalid baud, checked first,
still yields an error for every string. -/
theorem validateConfig_ignores_extra_chars :
    (∀ (b : Int) (cfg : List Nat), 3 ≤ cfg.length →
      validateConfig b cfg = validateConfig b (cfg.take 3)) ∧
    validateConfig 9600 [] = VResult.panicked := by
  refine ⟨?_, by decide⟩
  intro b cfg hlen
  match cfg with
  | c0 :: c1 :: c2 :: rest =>
    cases hb : baudMap b <;> simp [validateConfig, hb]

/-- C2 amended witness: instantiated at baud 9600 and the length-4 string
"8N1X", whose validation coincides with that of "8N1". -/
theorem validateConfig_ignores_extra_chars_witness :
    validateConfig 9600 [56, 78, 49, 88] = validateConfig 9600 [56, 78, 49] := by
  have h := validateConfig_ignores_extra_chars
  simpa using h.1 9600 [56, 78, 49, 88] (by decide)

/-- C4: when the baud, data-bits and parity lookups succeed but the
stop-bits character is not in `stopBitsMap`, `validateConfig` fails with
the parity error text "Invalid parity parameter." reused verbatim. -/
theorem stopBits_error_reuses_parity_message (b : Int) (c0 c1 c2 : Nat)
    (rest : List Nat) (hb : (baudMap b).isSome = true)
    (h0 : (dataBitsMap c0).isSome = true)
    (h1 : (parityMap c1).isSome = true) (h2 : stopBitsMap c2 = none) :
    validateConfig b (c0 :: c1 :: c2 :: rest) =
      VResult.ret 0 0 (some "Invalid parity parameter.") := by
  obtain ⟨rate, hrate⟩ := Option.isSome_iff_exists.mp hb
  obtain ⟨d, hd⟩ := Option.isSome_iff_exists.mp h0
  obtain ⟨p, hp⟩ := Option.isSome_iff_exists.mp h1
  simp [validateConfig, hrate, hd, hp, h2]

/-- C4 witness: instantiated at baud 9600 and mode "8N3" (stop-bits byte
'3' = 51). -/
theorem stopBits_error_reuses_parity_message_witness :
    validateConfig 9600 [56, 78, 51] =
      VResult.ret 0 0 (some "Invalid parity parameter.") :=
  stopBits_error_reuses_parity_message 9600 56 78 51 []
    (by decide) (by decide) (by decide) (by decide)

/-- C6: whenever `validateConfig` returns an error, the rate and flags it
returns are both 0 — no partial result from earlier successful lookups
survives. -/
theorem validateConfig_no_partial_results (baud : Int) (cfg : List Nat)
    (r f : Nat) (msg : String)
    (h : validateConfig baud cfg = VResult.ret r f (some msg)) :
    r = 0 ∧ f = 0 := by
  unfold validateConfig at h
  repeat' split at h
  all_goals first
    | exact VResult.noConfusion h
    | (injection h with hr hf he;
       first
         | exact Option.noConfusion he
         | exact ⟨hr.symm, hf.symm⟩)

/-- C6 witness: instantiated at baud 9600 and mode "8N3", where the baud,
data-bits and parity lookups had already succeeded before the failure. -/
theorem validateConfig_no_partial_results_witness :
    validateConfig 9600 [56, 78, 51] =
      VResult.ret 0 0 (some "Invalid parity parameter.") ∧
    (0 : Nat) = 0 ∧ (0 : Nat) = 0 :=
  ⟨by decide,
   validateConfig_no_partial_results 9600 [56, 78, 51] 0 0
     "Invalid parity parameter." (by decide)⟩

/-- C3: SetBaud on an open port with inputs accepted by `validateConfig`
builds the terminal-attribute block with Iflag = IGNPAR,
Cflag = CREAD | CLOCAL | rate | flags, input and output speed both equal
to the rate, Cc[VMIN] = 1 and Cc[VTIME] = 4, issues exactly one TCSETS
ioctl carrying that block, fails with the errno-carrying error when the
ioctl returns non-zero (without touching the non-blocking flag), and on
errno 0 additionally issues `SetNonblock(fd, false)`, returning success or
propagating that final step's error. -/
theorem SetBaud_assembles_and_clears_nonblock (s : Serial) (env : Env)
    (baud : Int) (cfg : List Nat) (fd rate flags : Nat)
    (hopen : s.file = some fd)
    (hval : validateConfig baud cfg = VResult.ret rate flags none) :
    (setBaudTermios rate flags).Iflag = IGNPAR ∧
    (setBaudTermios rate flags).Cflag = (CREAD ||| CLOCAL ||| rate ||| flags) ∧
    (setBaudTermios rate flags).Ispeed = rate ∧
    (setBaudTermios rate flags).Ospeed = rate ∧
    ((setBaudTermios rate flags).Cc)[VMIN]? = some 1 ∧
    ((setBaudTermios rate flags).Cc)[VTIME]? = some 4 ∧
    (env.ioctlErrno fd TCSETS (IoctlArg.tio (setBaudTermios rate flags)) ≠ 0 →
      Serial.SetBaud s env baud cfg =
        (Outcome.err (SerialError.ioctlFailed s.Name
            (env.ioctlErrno fd TCSETS (IoctlArg.tio (setBaudTermios rate flags)))),
         s, [OSCall.osIoctl fd TCSETS (IoctlArg.tio (setBaudTermios rate flags))])) ∧
    (env.ioctlErrno fd TCSETS (IoctlArg.tio (setBaudTermios rate flags)) = 0 →
      env.setNonblockResult fd false = none →
      Serial.SetBaud s env baud cfg =
        (Outcome.ok, s,
         [OSCall.osIoctl fd TCSETS (IoctlArg.tio (setBaudTermios rate flags)),
          OSCall.osSetNonblock fd false])) ∧
    (∀ e, env.ioctlErrno fd TCSETS (IoctlArg.tio (setBaudTermios rate flags)) = 0 →
      env.setNonblockResult fd false = some e →
      Serial.SetBaud s env baud cfg =
        (Outcome.err (SerialError.osError e), s,
         [OSCall.osIoctl fd TCSETS (IoctlArg.tio (setBaudTermios rate flags)),
          OSCall.osSetNonblock fd false])) := by
  refine ⟨rfl, rfl, rfl, rfl, rfl, rfl, ?_, ?_, ?_⟩
  · intro hne
    simp [Serial.SetBaud, Serial.ioctl, hopen, hval, hne]
  · intro hz hnb
    simp [Serial.SetBaud, Serial.ioctl, hopen, hval, hz, hnb]
  · intro e hz hnb
    simp [Serial.SetBaud, Serial.ioctl, hopen, hval, hz, hnb]

/-- C3 witness: port "p" open on descriptor 3, baud 9600, mode "8N1"
(rate 13, flags 48), on the all-succeeding OS oracle. -/
theorem SetBaud_assembles_and_clears_nonblock_witness :
    Serial.SetBaud ⟨"p", some 3⟩ testEnv 9600 [56, 78, 49] =
      (Outcome.ok, ⟨"p", some 3⟩,
       [OSCall.osIoctl 3 TCSETS (IoctlArg.tio (setBaudTermios 13 48)),
        OSCall.osSetNonblock 3 false]) := by
  have h := SetBaud_assembles_and_clears_nonblock ⟨"p", some 3⟩ testEnv
    9600 [56, 78, 49] 3 13 48 rfl (by decide)
  exact h.2.2.2.2.2.2.2.1 rfl rfl

/-- C5: SetBaud, Read, Write, Flush and SendBreak on a Serial whose file
is nil all return the "not open" error naming the port, and their OS-call
trace is empty. -/
theorem closed_ops_fail_without_os_calls (s : Serial) (env : Env)
    (h : s.file = none) :
    (∀ baud cfg, Serial.SetBaud s env baud cfg =
        (Outcome.err (SerialError.notOpen s.Name), s, [])) ∧
    (∀ blen, Serial.Read s env blen =
        ((0, some (SerialError.notOpen s.Name)), [])) ∧
    (∀ b, Serial.Write s env b =
        ((0, some (SerialError.notOpen s.Name)), [])) ∧
    Serial.Flush s env = (some (SerialError.notOpen s.Name), []) ∧
    Serial.SendBreak s env = (some (SerialError.notOpen s.Name), []) := by
  refine ⟨fun baud cfg => ?_, fun blen => ?_, fun b => ?_, ?_, ?_⟩ <;>
    simp [Serial.SetBaud, Serial.Read, Serial.Write, Serial.Flush,
      Serial.SendBreak, h]

/-- C5 witness: the never-opened port "p" rejects all five operations
with the "not open" error and an empty OS trace. -/
theorem closed_ops_fail_without_os_calls_witness :
    Serial.SetBaud ⟨"p", none⟩ testEnv 9600 [56, 78, 49] =
      (Outcome.err (SerialError.notOpen "p"), ⟨"p", none⟩, []) ∧
    Serial.Read ⟨"p", none⟩ testEnv 16 =
      ((0, some (SerialError.notOpen "p")), []) ∧
    Serial.Write ⟨"p", none⟩ testEnv [65] =
      ((0, some (SerialError.notOpen "p")), []) ∧
    Serial.Flush ⟨"p", none⟩ testEnv = (some (SerialError.notOpen "p"), []) ∧
    Serial.SendBreak ⟨"p", none⟩ testEnv =
      (some (SerialError.notOpen "p"), []) := by
  have h := closed_ops_fail_without_os_calls ⟨"p", none⟩ testEnv rfl
  exact ⟨h.1 9600 [56, 78, 49], h.2.1 16, h.2.2.1 [65], h.2.2.2.1, h.2.2.2.2⟩

/-- C7: on an open port, Flush issues exactly one ioctl, with request
TCFLSH and argument TCIOFLUSH, and SendBreak issues exactly one ioctl,
with request TCSBRKP and argument 0; in each case errno 0 yields no error
while a non-zero errno is returned as an error carrying that code. -/
theorem flush_sendBreak_single_ioctl (s : Serial) (env : Env) (fd : Nat)
    (hopen : s.file = some fd) :
    (env.ioctlErrno fd TCFLSH (IoctlArg.num TCIOFLUSH) = 0 →
      Serial.Flush s env =
        (none, [OSCall.osIoctl fd TCFLSH (IoctlArg.num TCIOFLUSH)])) ∧
    (env.ioctlErrno fd TCFLSH (IoctlArg.num TCIOFLUSH) ≠ 0 →
      Serial.Flush s env =
        (some (SerialError.errnoErr
            (env.ioctlErrno fd TCFLSH (IoctlArg.num TCIOFLUSH))),
         [OSCall.osIoctl fd TCFLSH (IoctlArg.num TCIOFLUSH)])) ∧
    (env.ioctlErrno fd TCSBRKP (IoctlArg.num 0) = 0 →
      Serial.SendBreak s env =
        (none, [OSCall.osIoctl fd TCSBRKP (IoctlArg.num 0)])) ∧
    (env.ioctlErrno fd TCSBRKP (IoctlArg.num 0) ≠ 0 →
      Serial.SendBreak s env =
        (some (SerialError.errnoErr (env.ioctlErrno fd TCSBRKP (IoctlArg.num 0))),
         [OSCall.osIoctl fd TCSBRKP (IoctlArg.num 0)])) := by
  refine ⟨fun hz => ?_, fun hne => ?_, fun hz => ?_, fun hne => ?_⟩ <;>
    simp [Serial.Flush, Serial.SendBreak, Serial.ioctl, hopen, *]

/-- C7 witness: Flush on the all-succeeding oracle traces exactly one
TCFLSH/TCIOFLUSH ioctl with no error; SendBreak on the all-failing oracle
(errno 5) traces exactly one TCSBRKP/0 ioctl and surfaces errno 5. -/
theorem flush_sendBreak_single_ioctl_witness :
    Serial.Flush ⟨"p", some 3⟩ testEnv =
      (none, [OSCall.osIoctl 3 TCFLSH (IoctlArg.num TCIOFLUSH)]) ∧
    Serial.SendBreak ⟨"p", some 3⟩ failEnv =
      (some (SerialError.errnoErr 5), [OSCall.osIoctl 3 TCSBRKP (IoctlArg.num 0)]) := by
  have h1 := flush_sendBreak_single_ioctl ⟨"p", some 3⟩ testEnv 3 rfl
  have h2 := flush_sendBreak_single_ioctl ⟨"p", some 3⟩ failEnv 3 rfl
  exact ⟨h1.1 rfl, h2.2.2.2 (by decide)⟩

/-- C8: Open on an already-open Serial fails with the already-open error
naming the port, leaves the state unchanged, and issues no OS open call;
Close returns no error in every state and always leaves the handle
cleared (idempotent). -/
theorem open_already_open_close_idempotent (s : Serial) (env : Env) :
    (∀ fd, s.file = some fd →
      Serial.Open s env = (some (SerialError.alreadyOpen s.Name), s, [])) ∧
    (Serial.Close s env).1 = none ∧
    (Serial.Close s env).2.1 = ⟨s.Name, none⟩ := by
  obtain ⟨nm, f⟩ := s
  refine ⟨fun fd hf => ?_, ?_, ?_⟩ <;>
    cases f <;> simp_all [Serial.Open, Serial.Close]

/-- C8 witness: Open on port "p" already holding descriptor 3 fails and
leaves it unchanged; Close on the never-opened port "q" returns no error
and leaves the handle absent. -/
theorem open_already_open_close_idempotent_witness :
    Serial.Open ⟨"p", some 3⟩ testEnv =
      (some (SerialError.alreadyOpen "p"), ⟨"p", some 3⟩, []) ∧
    (Serial.Close ⟨"q", none⟩ testEnv).1 = none ∧
    (Serial.Close ⟨"q", none⟩ testEnv).2.1 = ⟨"q", none⟩ := by
  have h1 := open_already_open_close_idempotent ⟨"p", some 3⟩ testEnv
  have h2 := open_already_open_close_idempotent ⟨"q", none⟩ testEnv
  exact ⟨h1.1 3 rfl, h2.2.1, h2.2.2⟩

/-- C9: the ioctl helper on a Serial with no open handle returns the fixed
EBADFD code (77) with an empty OS trace — no system call is attempted. -/
theorem ioctl_closed_returns_ebadfd (s : Serial) (env : Env) (req : Nat)
    (arg : IoctlArg) (h : s.file = none) :
    Serial.ioctl s env req arg = (EBADFD, []) ∧ EBADFD = 77 := by
  refine ⟨?_, rfl⟩
  simp [Serial.ioctl, h]

/-- C9 witness: instantiated at the closed port "p" with a TCFLSH
request. -/
theorem ioctl_closed_returns_ebadfd_witness :
    Serial.ioctl ⟨"p", none⟩ testEnv TCFLSH (IoctlArg.num TCIOFLUSH) =
      (EBADFD, []) ∧ EBADFD = 77 :=
  ioctl_closed_returns_ebadfd ⟨"p", none⟩ testEnv TCFLSH
    (IoctlArg.num TCIOFLUSH) rfl

/-- C10: when the OS open call fails, Open returns that error and leaves
the Serial unchanged (still closed), after exactly the one OS open call;
when it succeeds, the stored handle is exactly the descriptor the OS
returned; SetBaud never changes the state (and Read, Write, Flush,
SendBreak return no state at all in this embedding because the Go methods
never assign to the struct); Close always leaves the handle absent. So
the handle field is always either absent or the one acquired by the most
recent successful Open. -/
theorem open_error_preserves_closed (s : Serial) (env : Env) :
    (∀ e, s.file = none →
      env.openResult s.Name serialOpenFlags 438 = Except.error e →
      Serial.Open s env =
        (some (SerialError.osError e), s,
         [OSCall.osOpen s.Name serialOpenFlags 438])) ∧
    (∀ fd, s.file = none →
      env.openResult s.Name serialOpenFlags 438 = Except.ok fd →
      Serial.Open s env =
        (none, ⟨s.Name, some fd⟩,
         [OSCall.osOpen s.Name serialOpenFlags 438])) ∧
    (∀ baud cfg, (Serial.SetBaud s env baud cfg).2.1 = s) ∧
    (Serial.Close s env).2.1 = ⟨s.Name, none⟩ := by
  obtain ⟨nm, f⟩ := s
  refine ⟨fun e hf hr => ?_, fun fd hf hr => ?_, fun baud cfg => ?_, ?_⟩
  · cases f <;> simp_all [Serial.Open]
  · cases f <;> simp_all [Serial.Open]
  · cases f with
    | none => rfl
    | some fd =>
      cases hv : validateConfig baud cfg with
      | panicked => simp [Serial.SetBaud, hv]
      | ret r fl e =>
        cases e with
        | some msg => simp [Serial.SetBaud, hv]
        | none =>
          simp only [Serial.SetBaud, Serial.ioctl, hv]
          split
          · rfl
          · split <;> rfl
  · cases f <;> simp [Serial.Close]

/-- C10 witness: Open on closed port "p" against the failing oracle
returns its error and stays closed; against the succeeding oracle it
stores descriptor 3. -/
theorem open_error_preserves_closed_witness :
    Serial.Open ⟨"p", none⟩ failEnv =
      (some (SerialError.osError "no such device"), ⟨"p", none⟩,
       [OSCall.osOpen "p" serialOpenFlags 438]) ∧
    Serial.Open ⟨"p", none⟩ testEnv =
      (none, ⟨"p", some 3⟩, [OSCall.osOpen "p" serialOpenFlags 438]) := by
  have h1 := open_error_preserves_closed ⟨"p", none⟩ failEnv
  have h2 := open_error_preserves_closed ⟨"p", none⟩ testEnv
  exact ⟨h1.1 "no such device" rfl rfl, h2.2.1 3 rfl rfl⟩
